import Mathlib

set_option maxRecDepth 2000

/-!
Verification development for the audio-introspection core of the
strudel-mcp-server repository: GraphTap (the patched AudioNode connect
hook), SpectralAnalyzer (analyze), CaptureSession
(startRecording / stopRecording) and the DurationEstimator.

The state is a shallow embedding of the window.strudelAudioAnalyzer
object from src/StrudelController.ts.  Audio nodes are opaque handles
carrying an id, the id of their AudioContext, their constructor name,
and (for analyser nodes) their fftSize.  Numbers are modelled by Nat /
Int / Rat; JavaScript Math.round is the function jround below.
-/

/-- Rounding as performed by JavaScript Math.round: nearest integer,
ties toward positive infinity. -/
def jround (q : ℚ) : ℤ := ⌊q + 1 / 2⌋

/-- Rounding to one decimal, as Math.round (q * 10) / 10. -/
def round1 (q : ℚ) : ℚ := (jround (q * 10) : ℚ) / 10

/-- Rounding to two decimals, as Math.round (q * 100) / 100. -/
def round2 (q : ℚ) : ℚ := (jround (q * 100) : ℚ) / 100

/-- Maximum of a list of byte magnitudes, as Math.max applied to the
spread of a nonnegative data array (0 on the empty list). -/
def listMax (l : List ℕ) : ℕ := l.foldl max 0

/-- Index-weighted magnitude sum, as accumulated by the forEach loop in
analyze: the sum of i * data[i]. -/
def wsum (l : List ℕ) : ℕ := (l.enum.map fun p => p.1 * p.2).sum

/-- First index holding the value v, as Array.prototype.indexOf
(returns the length when the value is absent). -/
def jsIndexOf (l : List ℕ) (v : ℕ) : ℕ := l.findIdx fun x => x == v

/-- Index of the first occurrence of the maximum magnitude, as
data.indexOf (Math.max (...data)). -/
def peakIndex (l : List ℕ) : ℕ := jsIndexOf l (listMax l)

/-- An audio-graph node handle: identity, owning AudioContext id,
constructor name, and the fftSize property (meaningful on analysers). -/
structure AudioNode where
  id : ℕ
  ctx : ℕ
  kind : String
  fftSize : ℕ
deriving DecidableEq, Repr

/-- The window.strudelAudioAnalyzer singleton state: the TapState
fields (analyser, dataArray, isConnected, lastConnectionTime,
sourceNode) followed by the CaptureState fields (mediaRecorder,
audioChunks, isRecording, recordingStartTime, recordingDestination). -/
structure AnalyzerState where
  analyser : Option AudioNode
  dataArray : Option (List ℕ)
  isConnected : Bool
  lastConnectionTime : ℕ
  sourceNode : Option AudioNode
  mediaRecorder : Option ℕ
  audioChunks : List (List ℕ)
  isRecording : Bool
  recordingStartTime : ℕ
  recordingDestination : Option AudioNode
deriving DecidableEq, Repr

/-- The object literal assigned to window.strudelAudioAnalyzer at
injection time: every handle null, flags false, clocks zero. -/
def initialState : AnalyzerState :=
  { analyser := none, dataArray := none, isConnected := false,
    lastConnectionTime := 0, sourceNode := none, mediaRecorder := none,
    audioChunks := [], isRecording := false, recordingStartTime := 0,
    recordingDestination := none }

/-- Result of one call of the patched connect: the state after the
call, the real connections performed through the original primitive
(as pairs of node ids), whether the original was invoked with the
arguments unmodified, and whether a new analyser node was created. -/
structure HookResult where
  state : AnalyzerState
  edges : List (ℕ × ℕ)
  forwarded : Bool
  created : Bool
deriving DecidableEq, Repr

/-- An analyser node as produced by ctx.createAnalyser followed by the
assignment analyser.fftSize = 2048. -/
def createAnalyser (c fid : ℕ) : AudioNode :=
  { id := fid, ctx := c, kind := "AnalyserNode", fftSize := 2048 }

/-- The guard in the patched connect: reuse the existing analyser when
it exists and belongs to the connecting context, otherwise create a
fresh one together with its zero-filled Uint8Array of
frequencyBinCount = fftSize / 2 entries. -/
def ensureAnalyser (st : AnalyzerState) (c fid : ℕ) :
    AnalyzerState × AudioNode × Bool :=
  match st.analyser with
  | some a =>
    if a.ctx = c then (st, a, false)
    else
      let an := createAnalyser c fid
      ({ st with analyser := some an,
                 dataArray := some (List.replicate (an.fftSize / 2) 0) },
       an, true)
  | none =>
      let an := createAnalyser c fid
      ({ st with analyser := some an,
                 dataArray := some (List.replicate (an.fftSize / 2) 0) },
       an, true)

/-- The patched AudioNode.prototype.connect installed by connect() in
the injected object: when the first argument is an
AudioDestinationNode, splice the analyser in (source to analyser,
analyser to destination), record the source node and stamp the
connection; otherwise forward to the original connect unmodified. -/
def connect (st : AnalyzerState) (src dst : AudioNode) (now fid : ℕ) :
    HookResult :=
  if dst.kind = "AudioDestinationNode" then
    let r := ensureAnalyser st src.ctx fid
    { state := { r.1 with sourceNode := some src, isConnected := true,
                          lastConnectionTime := now },
      edges := [(src.id, r.2.1.id), (r.2.1.id, dst.id)],
      forwarded := false, created := r.2.2 }
  else
    { state := st, edges := [(src.id, dst.id)], forwarded := true,
      created := false }

/-- One call of the connect hook after connect() has been installed
twice: the outer wrapper runs its interception logic and its calls to
the captured original land on the inner wrapper (the function connect
above); on a non-terminal destination the outer wrapper forwards the
unmodified arguments to the inner wrapper. -/
def connectTwice (st : AnalyzerState) (src dst : AudioNode)
    (now fid : ℕ) : HookResult :=
  if dst.kind = "AudioDestinationNode" then
    let r := ensureAnalyser st src.ctx fid
    let st2 := { r.1 with sourceNode := some src }
    let h1 := connect st2 src r.2.1 now fid
    let h2 := connect h1.state r.2.1 dst now fid
    { state := { h2.state with isConnected := true,
                               lastConnectionTime := now },
      edges := h1.edges ++ h2.edges,
      forwarded := false,
      created := r.2.2 || h1.created || h2.created }
  else connect st src dst now fid

/-- The feature sub-object computed by analyze. N/A for the
bass-to-treble ratio is modelled by none. -/
structure Features where
  average : ℚ
  peak : ℕ
  peakFrequency : ℤ
  centroid : ℚ
  bass : ℤ
  lowMid : ℤ
  mid : ℤ
  highMid : ℤ
  treble : ℤ
  isPlaying : Bool
  isSilent : Bool
  bassToTreble : Option ℚ
  brightness : String
deriving DecidableEq, Repr

/-- The successful analyze result: connected is true by construction,
connectionStatus fields flagged / hasData / ageMs, the timestamp, and
the features. -/
structure AnalysisOk where
  flagged : Bool
  hasData : Bool
  ageMs : ℤ
  timestamp : ℕ
  features : Features
deriving DecidableEq, Repr

/-- Result of analyze: either the structured not-connected error or a
successful analysis. -/
inductive AnalyzeResult where
  | notConnected (error : String)
  | ok (result : AnalysisOk)
deriving DecidableEq, Repr

/-- The feature computation of analyze over the magnitude snapshot
data (one byte per frequency bin), transcribed from the body of
analyze in src/StrudelController.ts: hard-coded slice bounds and
divisors, Math.max peak, indexOf peak index, nominal 22050 Hz mapping,
forEach centroid accumulation, fixed thresholds. -/
def computeFeatures (data : List ℕ) : Features :=
  { average := round1 ((data.sum : ℚ) / (data.length : ℚ)),
    peak := listMax data,
    peakFrequency :=
      jround (((peakIndex data : ℚ) / (data.length : ℚ)) * 22050),
    centroid := round1 (if 0 < data.sum then
      (wsum data : ℚ) / (data.sum : ℚ) else 0),
    bass := jround (((data.take 8).sum : ℚ) / 8),
    lowMid := jround ((((data.drop 8).take 24).sum : ℚ) / 24),
    mid := jround ((((data.drop 32).take 96).sum : ℚ) / 96),
    highMid := jround ((((data.drop 128).take 128).sum : ℚ) / 128),
    treble := jround ((((data.drop 256).take 256).sum : ℚ) / 256),
    isPlaying := decide ((data.sum : ℚ) / (data.length : ℚ) > 5),
    isSilent := decide ((data.sum : ℚ) / (data.length : ℚ) < 1),
    bassToTreble :=
      if (0 : ℚ) < (((data.drop 256).take 256).sum : ℚ) / 256 then
        some (round2 ((((data.take 8).sum : ℚ) / 8) /
          ((((data.drop 256).take 256).sum : ℚ) / 256)))
      else none,
    brightness :=
      if (if 0 < data.sum then (wsum data : ℚ) / (data.sum : ℚ)
          else 0) > 500 then "bright"
      else if (if 0 < data.sum then (wsum data : ℚ) / (data.sum : ℚ)
          else 0) > 200 then "balanced"
      else "dark" }

/-- The analyze operation: the guard returns the structured error when
the analyser is null or the connected flag is false; otherwise it
reads the magnitude snapshot (the data argument models the buffer
contents after getByteFrequencyData) and computes the features. -/
def analyze (st : AnalyzerState) (now : ℕ) (data : List ℕ) :
    AnalyzeResult :=
  if st.analyser = none ∨ st.isConnected = false then
    .notConnected "Analyzer not connected"
  else
    .ok { flagged := true, hasData := decide (0 < data.length),
          ageMs := (now : ℤ) - (st.lastConnectionTime : ℤ),
          timestamp := now, features := computeFeatures data }

/-- Mean magnitude over the frequency-bin range from lo (inclusive) to
hi (exclusive), as worded by the specification: the mean within the
fixed bin sub-range. -/
def sliceMean (data : List ℕ) (lo hi : ℕ) : ℚ :=
  (((data.drop lo).take (hi - lo)).sum : ℚ) /
    (((data.drop lo).take (hi - lo)).length : ℚ)

/-- Reference feature vector following the words of the specification:
average is the mean over all bins to 1 decimal, band energies are
means over [0,8), [8,32), [32,128), [128,256), [256,512) to the
nearest integer, peakFrequencyHz is (indexOfPeak / 1024) * 22050, the
centroid is the magnitude-weighted mean bin index (0 on a zero
spectrum), isPlaying and isSilent compare the mean against 5 and 1,
the bass-to-treble ratio is formed when treble is positive, and the
brightness label uses the 500 / 200 centroid thresholds. -/
def specFeatures (data : List ℕ) : Features :=
  { average := round1 ((data.sum : ℚ) / (data.length : ℚ)),
    peak := listMax data,
    peakFrequency := jround (((peakIndex data : ℚ) / 1024) * 22050),
    centroid := round1 (if 0 < data.sum then
      (wsum data : ℚ) / (data.sum : ℚ) else 0),
    bass := jround (sliceMean data 0 8),
    lowMid := jround (sliceMean data 8 32),
    mid := jround (sliceMean data 32 128),
    highMid := jround (sliceMean data 128 256),
    treble := jround (sliceMean data 256 512),
    isPlaying := decide ((data.sum : ℚ) / (data.length : ℚ) > 5),
    isSilent := decide ((data.sum : ℚ) / (data.length : ℚ) < 1),
    bassToTreble :=
      if (0 : ℚ) < sliceMean data 256 512 then
        some (round2 (sliceMean data 0 8 / sliceMean data 256 512))
      else none,
    brightness :=
      if (if 0 < data.sum then (wsum data : ℚ) / (data.sum : ℚ)
          else 0) > 500 then "bright"
      else if (if 0 < data.sum then (wsum data : ℚ) / (data.sum : ℚ)
          else 0) > 200 then "balanced"
      else "dark" }

/-- Result of startRecording: the structured error object or the
success object with its message. -/
inductive StartResult where
  | error (e : String)
  | success (message : String)
deriving DecidableEq, Repr

/-- The startRecording operation.  The supports argument models
whether createMediaStreamDestination is a function on the AudioContext
with the given id; destId and recId are the identities of the stream
destination and MediaRecorder the context would hand out; now is
Date.now().  The checks appear in source order: already recording, no
analyser, no source node, capability; on success the stream
destination is created in the source context, the source is wired to
it (a non-terminal connection, forwarded unmodified by the tap), the
recorder is created, the chunk list cleared, and the state stamped. -/
def startRecording (st : AnalyzerState) (supports : ℕ → Bool)
    (destId recId now : ℕ) : AnalyzerState × StartResult :=
  if st.isRecording then (st, .error "Already recording")
  else match st.analyser with
  | none => (st, .error "Analyzer not connected - play pattern first")
  | some _ =>
    match st.sourceNode with
    | none => (st, .error "Source node not available - play pattern first")
    | some src =>
      if supports src.ctx = false then
        (st, .error "Audio context does not support MediaStreamDestination. This is a browser/context limitation.")
      else
        let dest : AudioNode :=
          { id := destId, ctx := src.ctx,
            kind := "MediaStreamAudioDestinationNode", fftSize := 0 }
        ({ st with recordingDestination := some dest,
                   mediaRecorder := some recId,
                   audioChunks := [],
                   isRecording := true,
                   recordingStartTime := now },
         .success "Recording started")

/-- The ondataavailable callback wired by startRecording: append the
emitted chunk to the ordered chunk sequence when it is non-empty. -/
def recorderDataAvailable (st : AnalyzerState) (chunk : List ℕ) :
    AnalyzerState :=
  if 0 < chunk.length then
    { st with audioChunks := st.audioChunks ++ [chunk] }
  else st

/-- Immediate outcome of a stopRecording call: the structured error,
or a pending promise that resolves when the onstop finalize chain
fires. -/
inductive StopCall where
  | err (e : String)
  | pending
deriving DecidableEq, Repr

/-- The synchronous part of stopRecording: the guard rejects when not
recording or the recorder handle is null; otherwise the call requests
the encoder to stop and returns a pending promise. -/
def stopRecording (st : AnalyzerState) : AnalyzerState × StopCall :=
  if st.isRecording = false ∨ st.mediaRecorder = none then
    (st, .err "Not currently recording")
  else (st, .pending)

/-- Character of the standard base64 alphabet at the given index. -/
def b64Char (n : ℕ) : Char :=
  "ABCDEFGHIJKLMNOPQRSTUVWXYZabcdefghijklmnopqrstuvwxyz0123456789+/".toList.getD n '='

/-- Base64 of a byte sequence, as produced inside the data URL of
FileReader.readAsDataURL and extracted by the split at the comma. -/
def base64Encode : List ℕ → String
  | [] => ""
  | [a] =>
      String.mk [b64Char (a / 4 % 64), b64Char (a % 4 * 16), '=', '=']
  | [a, b] =>
      String.mk [b64Char (a / 4 % 64), b64Char (a % 4 * 16 + b / 16 % 16),
        b64Char (b % 16 * 4), '=']
  | a :: b :: c :: rest =>
      String.mk [b64Char (a / 4 % 64), b64Char (a % 4 * 16 + b / 16 % 16),
        b64Char (b % 16 * 4 + c / 64 % 4), b64Char (c % 64)] ++
      base64Encode rest

/-- The resolved value of a successful stopRecording. -/
structure StopResult where
  success : Bool
  duration : ℚ
  sizeBytes : ℕ
  format : String
  audioData : String
deriving DecidableEq, Repr

/-- Outcome of the finalize chain: the state after the callbacks ran,
the resolved value, and whether the source-to-capture-destination
wiring was actually disconnected. -/
structure FinalizeResult where
  state : AnalyzerState
  result : StopResult
  disconnected : Bool
deriving DecidableEq, Repr

/-- The onstop plus onloadend finalize chain of stopRecording:
duration from the recording start stamp, the chunks concatenated into
one blob and base64-encoded, recording flag cleared, chunk list
cleared, and the recording destination disconnected exactly when the
source node and the capture destination are both present and share an
AudioContext (the cross-context case is skipped without raising); the
destination handle is dropped in every case. -/
def onStopFinalize (st : AnalyzerState) (now : ℕ) : FinalizeResult :=
  let blob := st.audioChunks.flatten
  let disc :=
    match st.sourceNode, st.recordingDestination with
    | some s, some d => s.ctx = d.ctx
    | _, _ => false
  { state := { st with isRecording := false, audioChunks := [],
                       recordingDestination := none },
    result := { success := true,
                duration := round1 (((now : ℚ) - (st.recordingStartTime : ℚ)) / 1000),
                sizeBytes := blob.length,
                format := "webm",
                audioData := base64Encode blob },
    disconnected := disc }

/-- The CaptureState invariant that actually holds throughout: when
the recording flag is set, a recorder handle exists. -/
def CapInv (st : AnalyzerState) : Prop :=
  st.isRecording = true → st.mediaRecorder ≠ none

/-- Value of a run of decimal digit characters. -/
def digitsToNat (l : List Char) : ℕ :=
  l.foldl (fun a c => 10 * a + (c.toNat - 48)) 0

/-- Modelled from the spec: the numeric-literal match used by the
DurationEstimator (whose source file is not under src); parses an
integer part with an optional fractional part at the head of the
character stream. -/
def parseNum (s : List Char) : Option ℚ :=
  let ip := s.takeWhile Char.isDigit
  if ip.isEmpty then none
  else
    match s.drop ip.length with
    | '.' :: r2 =>
      let fp := r2.takeWhile Char.isDigit
      if fp.isEmpty then some (digitsToNat ip)
      else some ((digitsToNat ip : ℚ) + (digitsToNat fp : ℚ) / (10 ^ fp.length))
    | _ => some (digitsToNat ip)

/-- Remainder of the stream just after the first occurrence of the
pattern, when the pattern occurs. -/
def findAfter (pat : List Char) : List Char → Option (List Char)
  | [] => if pat.isEmpty then some [] else none
  | c :: rest =>
    if pat.isPrefixOf (c :: rest) then some ((c :: rest).drop pat.length)
    else findAfter pat rest

/-- Numeric literals found after every occurrence of the pattern. -/
def numsAfterAll (pat : List Char) : List Char → List ℚ
  | [] => []
  | c :: rest =>
    if pat.isPrefixOf (c :: rest) then
      match parseNum ((c :: rest).drop pat.length) with
      | some q => q :: numsAfterAll pat rest
      | none => numsAfterAll pat rest
    else numsAfterAll pat rest

/-- Whether the pattern occurs as a substring of the text. -/
def hasSub (pat text : String) : Bool :=
  (findAfter pat.toList text.toList).isSome

/-- Modelled from the spec: the cycles-per-minute value of a pattern
text, a numeric-literal match on the rate-setting call setcpm,
defaulting to 60 when absent. -/
def cpmOf (text : String) : ℚ :=
  ((findAfter "setcpm(".toList text.toList).bind parseNum).getD 60

/-- Modelled from the spec: every slow-down-factor literal found by a
scan of the text for slow calls. -/
def slowFactors (text : String) : List ℚ :=
  numsAfterAll ".slow(".toList text.toList

/-- Modelled from the spec: the running maximum of the slow factors,
defaulting to 1 when none are found. -/
def maxSlowFactor (text : String) : ℚ :=
  (slowFactors text).foldl max 1

/-- The DurationEstimate record returned by the estimator. -/
structure DurationEstimate where
  cyclesPerMinute : ℚ
  cycleCount : ℚ
  seconds : ℚ
  formatted : String
deriving DecidableEq, Repr

/-- Zero-padding of the seconds component to two digits. -/
def pad2 (n : ℤ) : String :=
  if 0 ≤ n ∧ n < 10 then "0" ++ toString n else toString n

/-- Modelled from the spec: estimate of the playback duration of a
pattern text (the DurationEstimator source file is not under src):
seconds = (maxFactor / cpm) * 60 rounded to 2 decimals, formatted as
minutes:seconds with the minutes truncated and the seconds
zero-padded. -/
def estimate (text : String) : DurationEstimate :=
  { cyclesPerMinute := cpmOf text,
    cycleCount := maxSlowFactor text,
    seconds := round2 (maxSlowFactor text / cpmOf text * 60),
    formatted :=
      toString ⌊round2 (maxSlowFactor text / cpmOf text * 60) / 60⌋ ++
      ":" ++
      pad2 (jround (round2 (maxSlowFactor text / cpmOf text * 60) -
        60 * (⌊round2 (maxSlowFactor text / cpmOf text * 60) / 60⌋ : ℚ))) }

/-- A source node as Strudel would connect to the destination. -/
def srcNode : AudioNode :=
  { id := 1, ctx := 0, kind := "GainNode", fftSize := 0 }

/-- The terminal output sink of the audio context. -/
def outNode : AudioNode :=
  { id := 2, ctx := 0, kind := "AudioDestinationNode", fftSize := 0 }

/-- State after one terminal connection has been intercepted. -/
def tapState : AnalyzerState := (connect initialState srcNode outNode 5 100).state

/-- A state in the middle of a recording. -/
def recState : AnalyzerState :=
  { initialState with isRecording := true, mediaRecorder := some 7 }

/-- State produced by tapping, recording, stopping and finalizing:
the concrete run exhibiting the broken direction of the claimed
CaptureState invariant. -/
def cexState : AnalyzerState :=
  (onStopFinalize
    (startRecording tapState (fun _ => true) 200 300 1000).1 2000).state

/-- The TapState invariant maintained by the hook: an existing
analyser has transform size 2048 and a 1024-entry frequency buffer. -/
def TapInv (st : AnalyzerState) : Prop :=
  ∀ a, st.analyser = some a → a.fftSize = 2048 ∧
    ∃ buf, st.dataArray = some buf ∧ buf.length = 1024

/-- C9: whenever the connected flag is false or no analyser exists,
analyze returns the structured not-connected result (and, being a
total function, raises nothing). -/
theorem analyze_notConnected_of_unready (st : AnalyzerState) (now : ℕ)
    (data : List ℕ) (h : st.analyser = none ∨ st.isConnected = false) :
    analyze st now data = .notConnected "Analyzer not connected" := by
  unfold analyze
  rw [if_pos h]

/-- Witness for C9 at the freshly injected state. -/
theorem analyze_notConnected_of_unready_witness :
    (initialState.analyser = none ∨ initialState.isConnected = false) ∧
    analyze initialState 0 [] = .notConnected "Analyzer not connected" :=
  ⟨Or.inl rfl, analyze_notConnected_of_unready initialState 0 [] (Or.inl rfl)⟩

/-- C7: the wrong-state rejections of the capture state machine are
side-effect free: start while recording and stop while idle return
their structured errors with the state returned exactly as it was. -/
theorem wrong_state_rejections (st : AnalyzerState) (supports : ℕ → Bool)
    (destId recId now : ℕ) :
    (st.isRecording = true →
      startRecording st supports destId recId now =
        (st, .error "Already recording")) ∧
    (st.isRecording = false →
      stopRecording st = (st, .err "Not currently recording")) := by
  constructor
  · intro h
    unfold startRecording
    rw [h]
    rfl
  · intro h
    unfold stopRecording
    rw [if_pos (Or.inl h)]

/-- Witness for C7: start rejected mid-recording, stop rejected when
idle, both leaving the state untouched. -/
theorem wrong_state_rejections_witness :
    (recState.isRecording = true ∧
      startRecording recState (fun _ => true) 1 2 3 =
        (recState, .error "Already recording")) ∧
    (initialState.isRecording = false ∧
      stopRecording initialState =
        (initialState, .err "Not currently recording")) :=
  ⟨⟨rfl, (wrong_state_rejections recState (fun _ => true) 1 2 3).1 rfl⟩,
   ⟨rfl, (wrong_state_rejections initialState (fun _ => true) 1 2 3).2 rfl⟩⟩

/-- C6: startRecording always returns a structured result (it is a
total function, so no exception escapes), and its precondition checks
fire in source order: already recording, then missing analyser, then
missing source node, then the capability check on
createMediaStreamDestination. -/
theorem startRecording_error_order (st : AnalyzerState)
    (supports : ℕ → Bool) (destId recId now : ℕ) :
    (st.isRecording = true →
      (startRecording st supports destId recId now).2 =
        .error "Already recording") ∧
    (st.isRecording = false → st.analyser = none →
      (startRecording st supports destId recId now).2 =
        .error "Analyzer not connected - play pattern first") ∧
    (∀ a, st.isRecording = false → st.analyser = some a →
      st.sourceNode = none →
      (startRecording st supports destId recId now).2 =
        .error "Source node not available - play pattern first") ∧
    (∀ a src, st.isRecording = false → st.analyser = some a →
      st.sourceNode = some src → supports src.ctx = false →
      (startRecording st supports destId recId now).2 =
        .error "Audio context does not support MediaStreamDestination. This is a browser/context limitation.") := by
  refine ⟨?_, ?_, ?_, ?_⟩
  · intro h
    unfold startRecording
    rw [h]
    rfl
  · intro h ha
    unfold startRecording
    rw [h, ha]
    rfl
  · intro a h ha hs
    unfold startRecording
    rw [h, ha, hs]
    rfl
  · intro a src h ha hs hsup
    unfold startRecording
    rw [h, ha, hs]
    simp [hsup]

/-- Witness for C6: each of the four error branches at a concrete
state. -/
theorem startRecording_error_order_witness :
    ((startRecording recState (fun _ => true) 1 2 3).2 =
      .error "Already recording") ∧
    ((startRecording initialState (fun _ => true) 1 2 3).2 =
      .error "Analyzer not connected - play pattern first") ∧
    ((startRecording { initialState with
        analyser := some (createAnalyser 0 100) } (fun _ => true) 1 2 3).2 =
      .error "Source node not available - play pattern first") ∧
    ((startRecording tapState (fun _ => false) 1 2 3).2 =
      .error "Audio context does not support MediaStreamDestination. This is a browser/context limitation.") :=
  ⟨(startRecording_error_order recState (fun _ => true) 1 2 3).1 rfl,
   (startRecording_error_order initialState (fun _ => true) 1 2 3).2.1 rfl rfl,
   (startRecording_error_order { initialState with
        analyser := some (createAnalyser 0 100) } (fun _ => true) 1 2 3).2.2.1
     (createAnalyser 0 100) rfl rfl rfl,
   (startRecording_error_order tapState (fun _ => false) 1 2 3).2.2.2
     (createAnalyser 0 100) srcNode rfl rfl rfl rfl⟩

/-- C1 counterexample: after a successful startRecording and a
finalized stopRecording, the recording flag is false while the
recorder handle is still set (the finalize callback never clears
mediaRecorder), so the claimed biconditional invariant fails. -/
theorem capture_inv_iff_fails :
    ¬(cexState.isRecording = true ↔ cexState.mediaRecorder ≠ none) := by
  decide

/-- C1 (amended): every CaptureSession operation preserves the
one-directional invariant that a set recording flag implies a present
recorder handle: it holds initially and is preserved by startRecording
(successful or rejected), by the stopRecording call, and by its
finalize callback. -/
theorem capture_inv_preserved :
    CapInv initialState ∧
    (∀ st supports destId recId now, CapInv st →
      CapInv (startRecording st supports destId recId now).1) ∧
    (∀ st, CapInv st → CapInv (stopRecording st).1) ∧
    (∀ st now, CapInv st → CapInv (onStopFinalize st now).state) := by
  refine ⟨?_, ?_, ?_, ?_⟩
  · intro h
    simp [initialState] at h
  · intro st supports destId recId now hinv
    by_cases hrec : st.isRecording
    · unfold startRecording
      rw [hrec]
      exact hinv
    · rw [Bool.not_eq_true] at hrec
      cases han : st.analyser with
      | none =>
        unfold startRecording
        rw [hrec, han]
        exact hinv
      | some a =>
        cases hsrc : st.sourceNode with
        | none =>
          unfold startRecording
          rw [hrec, han, hsrc]
          exact hinv
        | some src =>
          by_cases hsup : supports src.ctx = false
          · simp only [startRecording, hrec, han, hsrc, hsup,
              Bool.false_eq_true, if_false, if_true]
            exact hinv
          · simp only [startRecording, hrec, han, hsrc, hsup,
              Bool.false_eq_true, if_false]
            intro _
            simp
  · intro st hinv
    unfold stopRecording
    split <;> exact hinv
  · intro st now _
    intro h
    simp [onStopFinalize] at h

/-- Witness for C1 (amended): the invariant carried through a
startRecording call from the initial state. -/
theorem capture_inv_preserved_witness :
    CapInv (startRecording initialState (fun _ => true) 1 2 3).1 :=
  capture_inv_preserved.2.1 initialState (fun _ => true) 1 2 3
    (fun h => absurd h (by decide))

/-- C5: a stopRecording call in the Recording state returns the
pending promise (the result exists only once the finalize callback
fires), and the finalize callback produces the successful result with
the rounded duration, the blob size, the webm format and the base64 of
the concatenated chunks, clears the recording flag and the chunk
sequence, and disconnects the capture wiring exactly when the source
node and the capture destination exist in the same context (skipping
silently otherwise). -/
theorem stopRecording_finalize_spec (st : AnalyzerState) (now r : ℕ)
    (hrec : st.isRecording = true) (hmr : st.mediaRecorder = some r) :
    stopRecording st = (st, .pending) ∧
    (onStopFinalize st now).result =
      { success := true,
        duration :=
          round1 (((now : ℚ) - (st.recordingStartTime : ℚ)) / 1000),
        sizeBytes := st.audioChunks.flatten.length,
        format := "webm",
        audioData := base64Encode st.audioChunks.flatten } ∧
    (onStopFinalize st now).state.isRecording = false ∧
    (onStopFinalize st now).state.audioChunks = [] ∧
    ((onStopFinalize st now).disconnected = true ↔
      ∃ s d, st.sourceNode = some s ∧ st.recordingDestination = some d ∧
        s.ctx = d.ctx) := by
  refine ⟨?_, rfl, rfl, rfl, ?_⟩
  · unfold stopRecording
    rw [if_neg]
    intro hor
    rcases hor with h | h
    · rw [hrec] at h
      exact absurd h (by simp)
    · rw [hmr] at h
      exact Option.some_ne_none r h
  · cases hs : st.sourceNode with
    | none => simp [onStopFinalize, hs]
    | some s =>
      cases hd : st.recordingDestination with
      | none => simp [onStopFinalize, hs, hd]
      | some d => simp [onStopFinalize, hs, hd]

/-- Witness for C5: the full stop and finalize run at a concrete
recording state. -/
theorem stopRecording_finalize_spec_witness :
    stopRecording recState = (recState, .pending) ∧
    (onStopFinalize recState 500).result =
      { success := true,
        duration :=
          round1 (((500 : ℚ) - (recState.recordingStartTime : ℚ)) / 1000),
        sizeBytes := recState.audioChunks.flatten.length,
        format := "webm",
        audioData := base64Encode recState.audioChunks.flatten } ∧
    (onStopFinalize recState 500).state.isRecording = false ∧
    (onStopFinalize recState 500).state.audioChunks = [] ∧
    ((onStopFinalize recState 500).disconnected = true ↔
      ∃ s d, recState.sourceNode = some s ∧
        recState.recordingDestination = some d ∧ s.ctx = d.ctx) :=
  stopRecording_finalize_spec recState 500 7 rfl rfl

/-- Unfolding of the analyser guard when no analyser exists yet. -/
theorem ensureAnalyser_none (st : AnalyzerState) (c fid : ℕ)
    (h : st.analyser = none) :
    ensureAnalyser st c fid =
      ({ st with analyser := some (createAnalyser c fid),
                 dataArray := some (List.replicate (2048 / 2) 0) },
       createAnalyser c fid, true) := by
  unfold ensureAnalyser
  rw [h]
  rfl

/-- Unfolding of the analyser guard when the analyser matches the
connecting context: reuse. -/
theorem ensureAnalyser_reuse (st : AnalyzerState) (c fid : ℕ)
    (a : AudioNode) (h : st.analyser = some a) (hc : a.ctx = c) :
    ensureAnalyser st c fid = (st, a, false) := by
  unfold ensureAnalyser
  rw [h]
  exact if_pos hc

/-- Unfolding of the analyser guard when the analyser belongs to a
different context: a fresh analyser is created. -/
theorem ensureAnalyser_stale (st : AnalyzerState) (c fid : ℕ)
    (a : AudioNode) (h : st.analyser = some a) (hc : a.ctx ≠ c) :
    ensureAnalyser st c fid =
      ({ st with analyser := some (createAnalyser c fid),
                 dataArray := some (List.replicate (2048 / 2) 0) },
       createAnalyser c fid, true) := by
  unfold ensureAnalyser
  rw [h]
  exact if_neg hc

/-- C4: on a terminal-output connection the hook realizes exactly the
two real connections source-to-analyser and analyser-to-destination,
with the analyser at transform size 2048 and a 1024-bin buffer, sets
the connected flag and timestamp and records the source handle; on any
other connection the original primitive receives the unmodified
arguments and the tap state is unchanged. -/
theorem connect_interception (st : AnalyzerState) (src dst : AudioNode)
    (now fid : ℕ) (hinv : TapInv st) :
    (dst.kind = "AudioDestinationNode" →
      ∃ an, (connect st src dst now fid).state.analyser = some an ∧
        (connect st src dst now fid).edges =
          [(src.id, an.id), (an.id, dst.id)] ∧
        an.fftSize = 2048 ∧
        (∃ buf, (connect st src dst now fid).state.dataArray = some buf ∧
          buf.length = 1024) ∧
        (connect st src dst now fid).state.isConnected = true ∧
        (connect st src dst now fid).state.lastConnectionTime = now ∧
        (connect st src dst now fid).state.sourceNode = some src ∧
        (connect st src dst now fid).forwarded = false) ∧
    (dst.kind ≠ "AudioDestinationNode" →
      (connect st src dst now fid).state = st ∧
      (connect st src dst now fid).forwarded = true ∧
      (connect st src dst now fid).edges = [(src.id, dst.id)]) := by
  constructor
  · intro hk
    unfold connect
    rw [if_pos hk]
    cases han : st.analyser with
    | none =>
      rw [ensureAnalyser_none st src.ctx fid han]
      exact ⟨createAnalyser src.ctx fid, rfl, rfl, rfl,
        ⟨_, rfl, by rw [List.length_replicate]⟩, rfl, rfl, rfl, rfl⟩
    | some a =>
      by_cases hc : a.ctx = src.ctx
      · obtain ⟨hf, buf, hbuf, hlen⟩ := hinv a han
        rw [ensureAnalyser_reuse st src.ctx fid a han hc]
        exact ⟨a, han, rfl, hf, ⟨buf, hbuf, hlen⟩, rfl, rfl, rfl, rfl⟩
      · rw [ensureAnalyser_stale st src.ctx fid a han hc]
        exact ⟨createAnalyser src.ctx fid, rfl, rfl, rfl,
          ⟨_, rfl, by rw [List.length_replicate]⟩, rfl, rfl, rfl, rfl⟩
  · intro hk
    unfold connect
    rw [if_neg hk]
    exact ⟨rfl, rfl, rfl⟩

/-- Witness for C4: both branches at concrete nodes, from the initial
state (which satisfies the tap invariant vacuously). -/
theorem connect_interception_witness :
    (outNode.kind = "AudioDestinationNode" →
      ∃ an, (connect initialState srcNode outNode 5 100).state.analyser =
          some an ∧
        (connect initialState srcNode outNode 5 100).edges =
          [(srcNode.id, an.id), (an.id, outNode.id)] ∧
        an.fftSize = 2048 ∧
        (∃ buf,
          (connect initialState srcNode outNode 5 100).state.dataArray =
            some buf ∧ buf.length = 1024) ∧
        (connect initialState srcNode outNode 5 100).state.isConnected =
          true ∧
        (connect initialState srcNode outNode 5 100).state.lastConnectionTime
          = 5 ∧
        (connect initialState srcNode outNode 5 100).state.sourceNode =
          some srcNode ∧
        (connect initialState srcNode outNode 5 100).forwarded = false) ∧
    (srcNode.kind ≠ "AudioDestinationNode" →
      (connect initialState srcNode srcNode 5 100).state = initialState ∧
      (connect initialState srcNode srcNode 5 100).forwarded = true ∧
      (connect initialState srcNode srcNode 5 100).edges =
        [(srcNode.id, srcNode.id)]) :=
  ⟨(connect_interception initialState srcNode outNode 5 100
      (fun a h => by simp [initialState] at h)).1,
   (connect_interception initialState srcNode srcNode 5 100
      (fun a h => by simp [initialState] at h)).2⟩

/-- C8: when an analyser already exists for the connecting context, a
terminal-output connection reuses it and creates no new analyser; the
same holds when the hook has been installed twice, so repeated
installs and repeated output connections never grow a chain of
duplicate analysers. -/
theorem analyser_reuse_idempotent (st : AnalyzerState)
    (src dst : AudioNode) (now fid : ℕ) (a : AudioNode)
    (ha : st.analyser = some a) (hctx : a.ctx = src.ctx)
    (hdst : dst.kind = "AudioDestinationNode") :
    ((connect st src dst now fid).state.analyser = some a ∧
     (connect st src dst now fid).created = false) ∧
    ((connectTwice st src dst now fid).state.analyser = some a ∧
     (connectTwice st src dst now fid).created = false) := by
  have h1 : ensureAnalyser st src.ctx fid = (st, a, false) := by
    simp [ensureAnalyser, ha, hctx]
  constructor
  · simp [connect, hdst, h1, ha]
  · by_cases hk : a.kind = "AudioDestinationNode"
    · simp [connectTwice, connect, hdst, h1, hk, ensureAnalyser, ha, hctx]
    · simp [connectTwice, connect, hdst, h1, hk, ensureAnalyser, ha, hctx]

/-- Witness for C8: a second terminal connection in the context of the
analyser created by the first one. -/
theorem analyser_reuse_idempotent_witness :
    ((connect tapState srcNode outNode 9 101).state.analyser =
        some (createAnalyser 0 100) ∧
      (connect tapState srcNode outNode 9 101).created = false) ∧
    ((connectTwice tapState srcNode outNode 9 101).state.analyser =
        some (createAnalyser 0 100) ∧
      (connectTwice tapState srcNode outNode 9 101).created = false) :=
  analyser_reuse_idempotent tapState srcNode outNode 9 101
    (createAnalyser 0 100) rfl rfl rfl

/-- C2 counterexample: on a pattern text with no rate or slow calls
the estimator formula (maxFactor / cpm) * 60 with the defaulted values
cpm = 60 and maxFactor = 1 produces 1 second formatted 0:01, so the
claimed default result of 60 seconds formatted 1:00 is false. -/
theorem estimate_default_counterexample :
    (estimate "note(c3 e3 g3)").cyclesPerMinute = 60 ∧
    (estimate "note(c3 e3 g3)").cycleCount = 1 ∧
    (estimate "note(c3 e3 g3)").seconds = 1 ∧
    (estimate "note(c3 e3 g3)").formatted = "0:01" ∧
    ¬((estimate "note(c3 e3 g3)").seconds = 60 ∧
      (estimate "note(c3 e3 g3)").formatted = "1:00") := by
  have h : estimate "note(c3 e3 g3)" =
      { cyclesPerMinute := 60, cycleCount := 1, seconds := 1,
        formatted := "0:01" } := by
    show DurationEstimate.mk _ _ _ _ = _
    rw [show cpmOf "note(c3 e3 g3)" = 60 from rfl,
      show maxSlowFactor "note(c3 e3 g3)" = 1 from rfl,
      show round2 ((1 : ℚ) / 60 * 60) = 1 by norm_num [round2, jround]]
    norm_num [pad2, jround]
    rfl
  rw [h]
  refine ⟨rfl, rfl, rfl, rfl, ?_⟩
  intro hc
  exact absurd hc.1 (by norm_num)

/-- C2 (amended): the estimator extracts the cycles-per-minute value
by a numeric-literal match on setcpm with default 60, takes the cycle
count as the maximum slow factor with default 1, and returns seconds =
(maxFactor / cpm) * 60 rounded to 2 decimals with the truncated-minute
zero-padded-second format; the example with setcpm 120 and slow 4 and
2 yields 120, 4, 2.0 and 0:02, and an input with no rate or slow calls
yields the defaults cpm 60, cycles 1, seconds 1.0, formatted 0:01 (not
60 seconds as claimed). -/
theorem estimate_spec :
    (∀ text, (estimate text).cyclesPerMinute = cpmOf text ∧
      (estimate text).cycleCount = maxSlowFactor text ∧
      (estimate text).seconds =
        round2 (maxSlowFactor text / cpmOf text * 60)) ∧
    estimate "setcpm(120) ... .slow(4) ... .slow(2)" =
      { cyclesPerMinute := 120, cycleCount := 4, seconds := 2,
        formatted := "0:02" } ∧
    (∀ text, hasSub "setcpm(" text = false → slowFactors text = [] →
      estimate text =
        { cyclesPerMinute := 60, cycleCount := 1, seconds := 1,
          formatted := "0:01" }) := by
  refine ⟨fun text => ⟨rfl, rfl, rfl⟩, ?_, ?_⟩
  · show DurationEstimate.mk _ _ _ _ = _
    rw [show cpmOf "setcpm(120) ... .slow(4) ... .slow(2)" = 120 from rfl,
      show maxSlowFactor "setcpm(120) ... .slow(4) ... .slow(2)" = 4
        from rfl,
      show round2 ((4 : ℚ) / 120 * 60) = 2 by norm_num [round2, jround]]
    norm_num [pad2, jround]
    rfl
  · intro text h1 h2
    have hnone : findAfter "setcpm(".toList text.toList = none := by
      cases hcase : findAfter "setcpm(".toList text.toList with
      | none => rfl
      | some v =>
        unfold hasSub at h1
        rw [hcase] at h1
        simp at h1
    have hc : cpmOf text = 60 := by
      unfold cpmOf
      rw [hnone]
      rfl
    have hm : maxSlowFactor text = 1 := by
      unfold maxSlowFactor
      rw [h2]
      rfl
    show DurationEstimate.mk _ _ _ _ = _
    rw [hc, hm,
      show round2 ((1 : ℚ) / 60 * 60) = 1 by norm_num [round2, jround]]
    norm_num [pad2, jround]
    rfl

/-- Witness for C2 (amended): the default branch at a concrete
pattern text without rate or slow calls. -/
theorem estimate_spec_witness :
    hasSub "setcpm(" "s(bd sd)" = false ∧ slowFactors "s(bd sd)" = [] ∧
    estimate "s(bd sd)" =
      { cyclesPerMinute := 60, cycleCount := 1, seconds := 1,
        formatted := "0:01" } :=
  ⟨rfl, rfl, estimate_spec.2.2 "s(bd sd)" rfl rfl⟩

/-- Agreement of the transcribed analyze arithmetic with the
spec-worded reference features on full 1024-bin snapshots. -/
theorem computeFeatures_eq_specFeatures (data : List ℕ)
    (hlen : data.length = 1024) :
    computeFeatures data = specFeatures data := by
  have e1 : ((((data.drop 0).take (8 - 0)).length : ℕ) : ℚ) = 8 := by
    norm_num [List.length_take, List.length_drop, hlen]
  have e2 : ((((data.drop 8).take (32 - 8)).length : ℕ) : ℚ) = 24 := by
    norm_num [List.length_take, List.length_drop, hlen]
  have e3 : ((((data.drop 32).take (128 - 32)).length : ℕ) : ℚ) = 96 := by
    norm_num [List.length_take, List.length_drop, hlen]
  have e4 : ((((data.drop 128).take (256 - 128)).length : ℕ) : ℚ) = 128 := by
    norm_num [List.length_take, List.length_drop, hlen]
  have e5 : ((((data.drop 256).take (512 - 256)).length : ℕ) : ℚ) = 256 := by
    norm_num [List.length_take, List.length_drop, hlen]
  have epeak : ((data.length : ℕ) : ℚ) = 1024 := by
    rw [hlen]
    norm_num
  unfold computeFeatures specFeatures sliceMean
  rw [e1, e2, e3, e4, e5, epeak]
  rfl

/-- Math.round is the identity on integers. -/
theorem jround_intCast (z : ℤ) : jround (z : ℚ) = z := by
  unfold jround
  rw [Int.floor_int_add]
  norm_num

/-- Math.round is the identity on natural numbers. -/
theorem jround_natCast (n : ℕ) : jround (n : ℚ) = n := by
  have h := jround_intCast (n : ℤ)
  rwa [Int.cast_natCast] at h

/-- Rounding to one decimal is the identity on natural numbers. -/
theorem round1_natCast (n : ℕ) : round1 (n : ℚ) = n := by
  unfold round1
  rw [show ((n : ℚ) * 10) = (((n * 10 : ℕ) : ℕ) : ℚ) by push_cast; ring,
    jround_natCast]
  push_cast
  field_simp

/-- Every band mean of a uniform 1024-bin spectrum is the uniform
value. -/
theorem sliceMean_uniform (v : ℕ) :
    sliceMean (List.replicate 1024 v) 0 8 = v ∧
    sliceMean (List.replicate 1024 v) 8 32 = v ∧
    sliceMean (List.replicate 1024 v) 32 128 = v ∧
    sliceMean (List.replicate 1024 v) 128 256 = v ∧
    sliceMean (List.replicate 1024 v) 256 512 = v := by
  refine ⟨?_, ?_, ?_, ?_, ?_⟩ <;>
    (unfold sliceMean
     rw [List.drop_replicate, List.take_replicate]
     norm_num [List.sum_replicate, smul_eq_mul])

/-- C3: on every connected tap state and every 1024-bin byte
magnitude snapshot, analyze succeeds and its features equal the
reference definitions (band means over the fixed sub-ranges, first
peak index against the nominal 22050 Hz mapping, weighted centroid,
fixed thresholds); consequently a uniform snapshot of value v has
average v and every band energy v. -/
theorem analyze_matches_reference :
    (∀ (st : AnalyzerState) (now : ℕ) (data : List ℕ),
      st.analyser ≠ none → st.isConnected = true → data.length = 1024 →
      (∀ x ∈ data, x ≤ 255) →
      analyze st now data = .ok
        { flagged := true, hasData := true,
          ageMs := (now : ℤ) - (st.lastConnectionTime : ℤ),
          timestamp := now, features := specFeatures data }) ∧
    (∀ v : ℕ, v ≤ 255 →
      (specFeatures (List.replicate 1024 v)).average = v ∧
      (specFeatures (List.replicate 1024 v)).bass = v ∧
      (specFeatures (List.replicate 1024 v)).lowMid = v ∧
      (specFeatures (List.replicate 1024 v)).mid = v ∧
      (specFeatures (List.replicate 1024 v)).highMid = v ∧
      (specFeatures (List.replicate 1024 v)).treble = v) := by
  constructor
  · intro st now data han hconn hlen hbytes
    unfold analyze
    rw [if_neg]
    · have hd : decide (0 < data.length) = true := by
        rw [hlen]
        rfl
      rw [hd, computeFeatures_eq_specFeatures data hlen]
    · intro h
      rcases h with h | h
      · exact han h
      · rw [hconn] at h
        exact absurd h (by simp)
  · intro v hv
    obtain ⟨s1, s2, s3, s4, s5⟩ := sliceMean_uniform v
    have hav : ((List.replicate 1024 v).sum : ℚ) /
        ((List.replicate 1024 v).length : ℚ) = (v : ℚ) := by
      rw [List.sum_replicate, smul_eq_mul, List.length_replicate]
      push_cast
      field_simp
    refine ⟨?_, ?_, ?_, ?_, ?_, ?_⟩
    · show round1 (((List.replicate 1024 v).sum : ℚ) /
        ((List.replicate 1024 v).length : ℚ)) = (v : ℚ)
      rw [hav, round1_natCast]
    · show jround (sliceMean (List.replicate 1024 v) 0 8) = (v : ℤ)
      rw [s1, jround_natCast]
    · show jround (sliceMean (List.replicate 1024 v) 8 32) = (v : ℤ)
      rw [s2, jround_natCast]
    · show jround (sliceMean (List.replicate 1024 v) 32 128) = (v : ℤ)
      rw [s3, jround_natCast]
    · show jround (sliceMean (List.replicate 1024 v) 128 256) = (v : ℤ)
      rw [s4, jround_natCast]
    · show jround (sliceMean (List.replicate 1024 v) 256 512) = (v : ℤ)
      rw [s5, jround_natCast]

/-- A maximum fold over a list is the seed or one of the elements. -/
theorem foldl_max_mem (l : List ℕ) (a : ℕ) :
    l.foldl max a = a ∨ l.foldl max a ∈ l := by
  induction l generalizing a with
  | nil => exact Or.inl rfl
  | cons x xs ih =>
    rw [List.foldl_cons]
    rcases ih (max a x) with h | h
    · rcases max_choice a x with hc | hc
      · exact Or.inl (h.trans hc)
      · refine Or.inr ?_
        rw [h, hc]
        exact List.mem_cons_self x xs
    · exact Or.inr (List.mem_cons_of_mem x h)

/-- The maximum magnitude of a nonempty snapshot occurs in it. -/
theorem listMax_mem (l : List ℕ) (h : l ≠ []) : listMax l ∈ l := by
  cases l with
  | nil => exact absurd rfl h
  | cons x xs =>
    unfold listMax
    rw [List.foldl_cons, Nat.zero_max]
    rcases foldl_max_mem xs x with hc | hc
    · rw [hc]
      exact List.mem_cons_self x xs
    · exact List.mem_cons_of_mem x hc

/-- C10: when several bins share the maximum magnitude, the peak
index used for peakFrequencyHz is the smallest such bin index,
because indexOf performs a first-occurrence search; the located bin
really holds the maximum, and analyze reports the frequency computed
from that first index. -/
theorem peak_tie_lowest_index (st : AnalyzerState) (now : ℕ)
    (data : List ℕ) (han : st.analyser ≠ none)
    (hconn : st.isConnected = true) (hlen : data.length = 1024) (i : ℕ)
    (hi : i < data.length) (hmax : data.get ⟨i, hi⟩ = listMax data) :
    peakIndex data ≤ i ∧
    (∃ hk : peakIndex data < data.length,
      data.get ⟨peakIndex data, hk⟩ = listMax data) ∧
    (computeFeatures data).peakFrequency =
      jround (((peakIndex data : ℚ) / (data.length : ℚ)) * 22050) ∧
    analyze st now data = .ok
      { flagged := true, hasData := decide (0 < data.length),
        ageMs := (now : ℤ) - (st.lastConnectionTime : ℤ),
        timestamp := now, features := computeFeatures data } := by
  have hne : data ≠ [] := by
    intro h
    rw [h] at hlen
    simp at hlen
  have hmem : listMax data ∈ data := listMax_mem data hne
  have hex : ∃ x ∈ data, (x == listMax data) = true :=
    ⟨listMax data, hmem, beq_self_eq_true _⟩
  have hlt : data.findIdx (fun x => x == listMax data) < data.length :=
    List.findIdx_lt_length_of_exists hex
  refine ⟨?_, ⟨hlt, ?_⟩, rfl, ?_⟩
  · by_contra hcon
    rw [Nat.not_le] at hcon
    have hfalse := List.not_of_lt_findIdx (p := fun x => x == listMax data)
      hcon
    rw [show data[i] = data.get ⟨i, hi⟩ from rfl, hmax] at hfalse
    rw [beq_self_eq_true] at hfalse
    exact absurd hfalse (by simp)
  · have hp := List.findIdx_getElem (p := fun x => x == listMax data)
      (w := hlt)
    rw [beq_iff_eq] at hp
    exact hp
  · unfold analyze
    rw [if_neg]
    intro h
    rcases h with h | h
    · exact han h
    · rw [hconn] at h
      exact absurd h (by simp)

/-- Witness for C3: the connected tap state with the all-zero
1024-bin snapshot, and the uniform corollary at value 0. -/
theorem analyze_matches_reference_witness :
    analyze tapState 7 (List.replicate 1024 0) = .ok
      { flagged := true, hasData := true,
        ageMs := (7 : ℤ) - (tapState.lastConnectionTime : ℤ),
        timestamp := 7,
        features := specFeatures (List.replicate 1024 0) } ∧
    (specFeatures (List.replicate 1024 0)).average = ((0 : ℕ) : ℚ) ∧
    (specFeatures (List.replicate 1024 0)).bass = ((0 : ℕ) : ℤ) :=
  ⟨analyze_matches_reference.1 tapState 7 (List.replicate 1024 0)
      (by decide) (by decide) (by rw [List.length_replicate])
      (fun x hx => by rw [List.eq_of_mem_replicate hx]; norm_num),
   (analyze_matches_reference.2 0 (by norm_num)).1,
   (analyze_matches_reference.2 0 (by norm_num)).2.1⟩

/-- A maximum fold over a nonempty uniform list yields the maximum of
the seed and the uniform value. -/
theorem foldl_max_replicate (v : ℕ) (n : ℕ) :
    ∀ a, (List.replicate (n + 1) v).foldl max a = max a v := by
  induction n with
  | zero => intro a; rfl
  | succ m ih =>
    intro a
    rw [show List.replicate (m + 1 + 1) v = v :: List.replicate (m + 1) v
        from rfl,
      List.foldl_cons, ih, max_assoc, max_self]

/-- The maximum magnitude of a nonempty uniform snapshot is the
uniform value. -/
theorem listMax_replicate_succ (n v : ℕ) :
    listMax (List.replicate (n + 1) v) = v := by
  unfold listMax
  rw [foldl_max_replicate, Nat.zero_max]

/-- Witness for C10: a uniform snapshot in which every bin attains the
maximum, tied at index 5; the first-occurrence index precedes it. -/
theorem peak_tie_lowest_index_witness :
    peakIndex (List.replicate 1024 7) ≤ 5 :=
  (peak_tie_lowest_index tapState 0 (List.replicate 1024 7) (by decide)
    (by decide) (by rw [List.length_replicate]) 5
    (by rw [List.length_replicate]; norm_num)
    (by
      rw [show listMax (List.replicate 1024 7) = 7
        from listMax_replicate_succ 1023 7]
      simp only [List.get_eq_getElem, List.getElem_replicate])).1
